import Mathlib

/-!
Verification of `modules/drivers/canbus/can_comm/protocol_data.h` from the
Apollo repository: the `ProtocolData` base class, its static helpers
`CalculateCheckSum` and `BoundedValue`, the metadata queries `GetPeriod` and
`GetLength`, and the default (no-op) virtual methods `Parse`, `UpdateData`
and `Reset`.

Bytes (`uint8_t`) are modelled as `Nat` with explicit `% 256` where the C++
arithmetic wraps; buffers (`const uint8_t *` with a length) are modelled as
`List Nat`; the generic template parameter `T` of `BoundedValue` is modelled
as any linearly ordered type; the generic `SensorType` output record is a
type parameter.
-/

set_option linter.unusedVariables false

namespace ProtocolData

/-- Embeds `ProtocolData::CalculateCheckSum`:
```
uint8_t sum = 0;
for (size_t i = 0; i < length; ++i) { sum += input[i]; }
return sum ^ 0xFF;
```
`sum` is a `uint8_t`, so each addition wraps modulo 256. The buffer together
with its length is the list `input`. -/
def CalculateCheckSum (input : List Nat) : Nat :=
  (input.foldl (fun sum b => (sum + b) % 256) 0) ^^^ 0xFF

/-- Embeds `ProtocolData::BoundedValue`:
```
if (lower > upper) { return val; }
if (val < lower) { return lower; }
if (val > upper) { return upper; }
return val;
```
generic over any linearly ordered value type, as the C++ template is. -/
def BoundedValue {T : Type} [LinearOrder T] (lower upper val : T) : T :=
  if lower > upper then val
  else if val < lower then lower
  else if val > upper then upper
  else val

/-- Embeds `ProtocolData::GetPeriod`:
`const uint32_t CONST_PERIOD = 100 * 1000; return CONST_PERIOD;` -/
def GetPeriod : Nat := 100 * 1000

/-- Modelled from the spec: the constant `CANBUS_MESSAGE_LENGTH` comes from
`modules/drivers/canbus/common/canbus_consts.h`, which is not part of the
sources at hand; the spec fixes the default frame byte length at 8, "the
standard CAN payload size". -/
def CANBUS_MESSAGE_LENGTH : Int := 8

/-- Embeds the member `const int32_t data_length_ = CANBUS_MESSAGE_LENGTH;`
of an unspecialized `ProtocolData` instance. -/
def data_length_ : Int := CANBUS_MESSAGE_LENGTH

/-- Embeds `ProtocolData::GetLength`: `return data_length_;` -/
def GetLength : Int := data_length_

/-- Embeds the default `ProtocolData::Parse(bytes, length, sensor_data)`:
an empty body, so the caller-owned output record is returned unchanged.
`SensorType` is the generic output record type. -/
def Parse {SensorType : Type} (bytes : List Nat) (length : Int)
    (sensor_data : SensorType) : SensorType :=
  sensor_data

/-- Embeds the default timestamped overload
`ProtocolData::Parse(bytes, length, timestamp, sensor_data)`, whose body is
`Parse(bytes, length, sensor_data);` — it forwards to the non-timestamped
overload, discarding the timestamp. Timestamps (`struct timeval`) are
modelled as a pair of integers (seconds, microseconds). -/
def ParseTimestamped {SensorType : Type} (bytes : List Nat) (length : Int)
    (timestamp : Int × Int) (sensor_data : SensorType) : SensorType :=
  Parse bytes length sensor_data

/-- Embeds the default `ProtocolData::UpdateData(data)`: an empty body, so
the caller-owned byte buffer is returned unchanged. -/
def UpdateData (data : List Nat) : List Nat :=
  data

/-- Embeds the default `ProtocolData::Reset()`: an empty body; any
observable state `st` held by a subclass is returned unchanged. -/
def Reset {State : Type} (st : State) : State :=
  st

/-- The wrapping byte accumulation of `CalculateCheckSum` computes the plain
arithmetic sum modulo 256. -/
lemma foldl_add_mod (l : List Nat) :
    ∀ a : Nat, l.foldl (fun sum b => (sum + b) % 256) (a % 256)
      = (a + l.sum) % 256 := by
  induction l with
  | nil => intro a; simp
  | cons x xs ih =>
    intro a
    simp only [List.foldl_cons, List.sum_cons]
    rw [Nat.mod_add_mod]
    rw [ih (a + x)]
    ring_nf

lemma checksum_eq_sum_mod_xor (input : List Nat) :
    CalculateCheckSum input = (input.sum % 256) ^^^ 0xFF := by
  unfold CalculateCheckSum
  have h := foldl_add_mod input 0
  simpa using h

set_option maxRecDepth 4096

/-- For a value below 256, XOR with 0xFF is the one's complement
`255 - t`. -/
lemma xor_255_eq_sub (t : Nat) (h : t < 256) : t ^^^ 0xFF = 255 - t := by
  revert h
  revert t
  decide

end ProtocolData

/-- C1: For every byte sequence `b` of length `n`,
`CalculateCheckSum(b, n)` equals the arithmetic sum of the `n` bytes
modulo 256, XOR-ed with 0xFF. -/
theorem C1_checksum_is_sum_mod_256_xor_FF (b : List Nat)
    (hbytes : ∀ x ∈ b, x < 256) :
    ProtocolData.CalculateCheckSum b = (b.sum % 256) ^^^ 0xFF :=
  ProtocolData.checksum_eq_sum_mod_xor b

/-- C1 witness: on the spec's example `b = [0x01, 0x02]` (bytes, sum 3) the
checksum is `0xFC`. -/
theorem C1_witness :
    (∀ x ∈ [0x01, 0x02], x < 256) ∧
      ProtocolData.CalculateCheckSum [0x01, 0x02] = (([0x01, 0x02].sum % 256) ^^^ 0xFF) ∧
      ProtocolData.CalculateCheckSum [0x01, 0x02] = 0xFC :=
  ⟨by decide, C1_checksum_is_sum_mod_256_xor_FF [0x01, 0x02] (by decide), by decide⟩

/-- C2: For every `lower <= upper` and every `value`,
`BoundedValue(lower, upper, value)` lies in `[lower, upper]`; it equals
`lower` when `value < lower`, `upper` when `value > upper`, and `value`
when `value` is already in range. -/
theorem C2_boundedvalue_clamps {T : Type} [LinearOrder T]
    (lower upper val : T) (hle : lower ≤ upper) :
    lower ≤ ProtocolData.BoundedValue lower upper val ∧
    ProtocolData.BoundedValue lower upper val ≤ upper ∧
    (val < lower → ProtocolData.BoundedValue lower upper val = lower) ∧
    (upper < val → ProtocolData.BoundedValue lower upper val = upper) ∧
    (lower ≤ val → val ≤ upper →
      ProtocolData.BoundedValue lower upper val = val) := by
  unfold ProtocolData.BoundedValue
  split_ifs with h1 h2 h3
  · exact absurd hle (not_le_of_gt h1)
  · exact ⟨le_refl _, hle, fun _ => rfl,
      fun hv => absurd (lt_trans hv h2) h1,
      fun hv _ => absurd h2 (not_lt_of_ge hv)⟩
  · exact ⟨hle, le_refl _,
      fun hv => absurd hv h2,
      fun _ => rfl,
      fun _ hv => absurd h3 (not_lt_of_ge hv)⟩
  · exact ⟨le_of_not_lt h2, le_of_not_lt h3,
      fun hv => absurd hv h2,
      fun hv => absurd hv h3,
      fun _ _ => rfl⟩

/-- C2 witness: the spec's examples on `Int`:
`BoundedValue(0, 10, 15) = 10`, `BoundedValue(0, 10, -5) = 0`,
`BoundedValue(0, 10, 5) = 5`. -/
theorem C2_witness :
    (0 : Int) ≤ 10 ∧
    ((0 : Int) ≤ ProtocolData.BoundedValue 0 10 15 ∧
      ProtocolData.BoundedValue (0 : Int) 10 15 ≤ 10 ∧
      ((15 : Int) < 0 → ProtocolData.BoundedValue (0 : Int) 10 15 = 0) ∧
      ((10 : Int) < 15 → ProtocolData.BoundedValue (0 : Int) 10 15 = 10) ∧
      ((0 : Int) ≤ 15 → (15 : Int) ≤ 10 →
        ProtocolData.BoundedValue (0 : Int) 10 15 = 15)) ∧
    ProtocolData.BoundedValue (0 : Int) 10 15 = 10 ∧
    ProtocolData.BoundedValue (0 : Int) 10 (-5) = 0 ∧
    ProtocolData.BoundedValue (0 : Int) 10 5 = 5 :=
  ⟨by decide, C2_boundedvalue_clamps (0 : Int) 10 15 (by decide),
    by decide, by decide, by decide⟩

/-- C3: When `lower > upper`, `BoundedValue(lower, upper, value)` returns
`value` unchanged for every `value`. -/
theorem C3_boundedvalue_passthrough {T : Type} [LinearOrder T]
    (lower upper val : T) (hgt : upper < lower) :
    ProtocolData.BoundedValue lower upper val = val := by
  unfold ProtocolData.BoundedValue
  rw [if_pos hgt]

/-- C3 witness: the spec's example `BoundedValue(10, 0, 7) = 7` on `Int`. -/
theorem C3_witness :
    (0 : Int) < 10 ∧ ProtocolData.BoundedValue (10 : Int) 0 7 = 7 :=
  ⟨by decide, C3_boundedvalue_passthrough (10 : Int) 0 7 (by decide)⟩

/-- C4: `CalculateCheckSum` of an empty input returns `0xFF`. -/
theorem C4_checksum_empty :
    ProtocolData.CalculateCheckSum [] = 0xFF := by
  decide

/-- C5: On an unspecialized `ProtocolData` instance, `GetPeriod()` returns
exactly 100000 microseconds and `GetLength()` returns the standard CAN
payload size, 8 bytes. -/
theorem C5_default_period_and_length :
    ProtocolData.GetPeriod = 100000 ∧ ProtocolData.GetLength = 8 := by
  decide

/-- C6: The default (unoverridden) `Parse`, `UpdateData` and `Reset` leave
the caller-owned output record, the byte buffer and all other observable
state unchanged, for every input length including zero. -/
theorem C6_default_methods_are_noops {SensorType State : Type}
    (bytes : List Nat) (length : Int) (sensor_data : SensorType)
    (data : List Nat) (st : State) :
    ProtocolData.Parse bytes length sensor_data = sensor_data ∧
    ProtocolData.UpdateData data = data ∧
    ProtocolData.Reset st = st :=
  ⟨rfl, rfl, rfl⟩

/-- C7: For every bytes buffer, length, timestamp and output record, the
default timestamp-aware `Parse` overload produces exactly the same output
as the non-timestamped `Parse` overload on the same bytes and length: the
timestamp is discarded. -/
theorem C7_timestamped_parse_delegates {SensorType : Type}
    (bytes : List Nat) (length : Int) (timestamp : Int × Int)
    (sensor_data : SensorType) :
    ProtocolData.ParseTimestamped bytes length timestamp sensor_data
      = ProtocolData.Parse bytes length sensor_data :=
  rfl

/-- C8: `CalculateCheckSum` and `BoundedValue` are deterministic pure
functions: two invocations with identical inputs return identical
results. -/
theorem C8_utilities_deterministic {T : Type} [LinearOrder T]
    (b1 b2 : List Nat) (l1 l2 u1 u2 v1 v2 : T)
    (hb : b1 = b2) (hl : l1 = l2) (hu : u1 = u2) (hv : v1 = v2) :
    ProtocolData.CalculateCheckSum b1 = ProtocolData.CalculateCheckSum b2 ∧
    ProtocolData.BoundedValue l1 u1 v1 = ProtocolData.BoundedValue l2 u2 v2 := by
  subst hb; subst hl; subst hu; subst hv
  exact ⟨rfl, rfl⟩

/-- C8 witness: at the concrete inputs `b = [1, 2]` and
`(lower, upper, val) = (0, 10, 5)` on `Int`, repeated invocations agree. -/
theorem C8_witness :
    ([1, 2] : List Nat) = [1, 2] ∧
    (ProtocolData.CalculateCheckSum [1, 2] = ProtocolData.CalculateCheckSum [1, 2] ∧
      ProtocolData.BoundedValue (0 : Int) 10 5 = ProtocolData.BoundedValue (0 : Int) 10 5) :=
  ⟨rfl, C8_utilities_deterministic [1, 2] [1, 2] (0 : Int) 0 10 10 5 5
    rfl rfl rfl rfl⟩

/-- C9: Checksum verification identity: for every byte sequence `b`,
`(sum(b) + CalculateCheckSum(b)) mod 256 = 0xFF`, so a frame whose
trailing byte is the checksum of its payload sums to `0xFF` mod 256. -/
theorem C9_checksum_verification (b : List Nat)
    (hbytes : ∀ x ∈ b, x < 256) :
    (b.sum + ProtocolData.CalculateCheckSum b) % 256 = 0xFF := by
  rw [ProtocolData.checksum_eq_sum_mod_xor b]
  rw [ProtocolData.xor_255_eq_sub (b.sum % 256) (Nat.mod_lt _ (by decide))]
  omega

/-- C9 witness: at `b = [0x01, 0x02]`, payload sum 3 plus checksum `0xFC`
is `0xFF` mod 256. -/
theorem C9_witness :
    (∀ x ∈ [0x01, 0x02], x < 256) ∧
      (([0x01, 0x02] : List Nat).sum
        + ProtocolData.CalculateCheckSum [0x01, 0x02]) % 256 = 0xFF :=
  ⟨by decide, C9_checksum_verification [0x01, 0x02] (by decide)⟩

/-- C10: `BoundedValue` is idempotent: for every `lower`, `upper` and
`value`, including the `lower > upper` case, clamping a clamped value
changes nothing. -/
theorem C10_boundedvalue_idempotent {T : Type} [LinearOrder T]
    (lower upper val : T) :
    ProtocolData.BoundedValue lower upper
        (ProtocolData.BoundedValue lower upper val)
      = ProtocolData.BoundedValue lower upper val := by
  unfold ProtocolData.BoundedValue
  by_cases h1 : lower > upper
  · simp [h1]
  · by_cases h2 : val < lower
    · simp [h1, h2, lt_irrefl]
    · by_cases h3 : val > upper
      · simp [h1, h2, h3, lt_irrefl]
      · simp [h1, h2, h3]
